import Mathlib

/-!
Verification of the recipe-api backend (Django REST application) against its
natural-language specification.  The data model and the operations are a
shallow embedding of `app/core/models.py`, `app/recipe/serializers.py` and
`app/recipe/views.py`: querysets become lists of rows, the ORM join used by
`filter(tags__id__in=...)` becomes an explicit list join producing duplicate
rows, `.distinct()` becomes `List.dedup`, `.order_by(...)` becomes
`List.insertionSort`, autoincrement primary keys become an explicit counter,
and exceptions become `Except`.
-/

/-! ## Data model (app/core/models.py) -/

/-- Row of the `Tag` model: `name`, `user` (owner foreign key) plus the
primary key. -/
structure Tag where
  id : Nat
  name : String
  user : Nat
deriving DecidableEq, Repr

/-- Row of the `Ingredient` model: same shape as `Tag`. -/
structure Ingredient where
  id : Nat
  name : String
  user : Nat
deriving DecidableEq, Repr

/-- Row of the `Recipe` model.  The many-to-many relations `tags` and
`ingredients` are stored as the lists of associated primary keys; `image`
is the optional stored file path. -/
structure Recipe where
  id : Nat
  user : Nat
  title : String
  description : String
  time_minutes : Int
  price : Int
  link : String
  tags : List Nat
  ingredients : List Nat
  image : Option String
deriving DecidableEq, Repr

/-! ## Query-string helpers (RecipeViewSet._params_to_ids, views.py 43-47)

`_params_to_ids` is `[int(id) for id in query_string.split(',')]`.  Both
`str.split(',')` and `int(...)` are embedded below; `int` raises `ValueError`
on a component that is not an integer literal, which the embedding turns into
`Except.error`. -/

/-- Python `str.split(sep)` restricted to a one-character separator, on a
character list: the empty string splits to `[""]`, adjacent separators give
empty components. -/
def splitCharAux (sep : Char) : List Char → List Char → List String
  | [], acc => [String.mk acc.reverse]
  | c :: cs, acc =>
    if c = sep then String.mk acc.reverse :: splitCharAux sep cs []
    else splitCharAux sep cs (c :: acc)

/-- Python `query_string.split(',')`. -/
def splitComma (s : String) : List String :=
  splitCharAux ',' s.data []

/-- ASCII whitespace accepted by Python `int` around the digits. -/
def isSpaceChar (c : Char) : Bool :=
  c = ' ' || c = '\t' || c = '\n' || c = '\r'

/-- Strip leading and trailing whitespace from a character list. -/
def trimChars (cs : List Char) : List Char :=
  ((cs.dropWhile isSpaceChar).reverse.dropWhile isSpaceChar).reverse

/-- Nonempty all-decimal-digit check. -/
def isDigits (cs : List Char) : Bool :=
  !cs.isEmpty && cs.all (fun c => c.isDigit)

/-- Value of a decimal digit string. -/
def digitsVal (cs : List Char) : Nat :=
  cs.foldl (fun acc c => 10 * acc + (c.toNat - 48)) 0

/-- Python `int(s)` on a string: optional surrounding whitespace, optional
sign, then a nonempty run of decimal digits; `none` models the `ValueError`
raised on anything else (in particular on the empty string). -/
def pyInt (s : String) : Option Int :=
  match trimChars s.data with
  | '+' :: rest => if isDigits rest then some (Int.ofNat (digitsVal rest)) else none
  | '-' :: rest => if isDigits rest then some (-(Int.ofNat (digitsVal rest))) else none
  | rest => if isDigits rest then some (Int.ofNat (digitsVal rest)) else none

/-- Run `pyInt` over every component; `none` as soon as one fails, as the
list comprehension in the source propagates the first `ValueError`. -/
def ints_of : List String → Option (List Int)
  | [] => some []
  | c :: cs =>
    match pyInt c, ints_of cs with
    | some i, some is => some (i :: is)
    | _, _ => none

/-- The `ValueError` message produced by Python `int` on a bad literal. -/
def pyIntErrorMsg : String := "ValueError: invalid literal for int() with base 10"

/-- `RecipeViewSet._params_to_ids` (views.py 43-47). -/
def params_to_ids (query_string : String) : Except String (List Int) :=
  match ints_of (splitComma query_string) with
  | some l => .ok l
  | none => .error pyIntErrorMsg

/-! ## Recipe list queryset (RecipeViewSet.get_queryset, views.py 49-67) -/

/-- The SQL join produced by `queryset.filter(rel__id__in=ids)` on a
many-to-many relation: one output row per matching associated id, so a
recipe matching several listed ids appears several times (collapsed later
by `.distinct()`). -/
def join_filter (qs : List Recipe) (proj : Recipe → List Nat) (ids : List Int) : List Recipe :=
  qs.flatMap (fun r => ((proj r).filter (fun t => ids.contains (Int.ofNat t))).map (fun _ => r))

/-- One optional id-list filter of `get_queryset`: the parameter is applied
only when present and truthy (Python `if tags:` skips `None` and the empty
string), and a component that `int` rejects propagates the `ValueError`. -/
def apply_id_filter (qs : List Recipe) (proj : Recipe → List Nat) (p : Option String) :
    Except String (List Recipe) :=
  match p with
  | none => .ok qs
  | some s =>
    if s = "" then .ok qs
    else
      match params_to_ids s with
      | .ok ids => .ok (join_filter qs proj ids)
      | .error e => .error e

/-- Descending primary-key order used by `.order_by('-id')`. -/
def recIdGe (a b : Recipe) : Prop := b.id ≤ a.id

instance : DecidableRel recIdGe := fun a b => Nat.decLe b.id a.id

instance : IsTotal Recipe recIdGe := ⟨fun a b => Nat.le_total b.id a.id⟩

instance : IsTrans Recipe recIdGe := ⟨fun _ _ _ hab hbc => Nat.le_trans hbc hab⟩

/-- `RecipeViewSet.get_queryset` (views.py 49-67): apply the `tags` filter,
then the `ingredients` filter, then narrow to the authenticated user, order
by id descending and collapse duplicate rows (`.distinct()`). -/
def get_queryset (recipes : List Recipe) (u : Nat) (tagsParam ingredientsParam : Option String) :
    Except String (List Recipe) :=
  match apply_id_filter recipes Recipe.tags tagsParam with
  | .error e => .error e
  | .ok q1 =>
    match apply_id_filter q1 Recipe.ingredients ingredientsParam with
    | .error e => .error e
    | .ok q2 =>
      .ok (List.dedup (List.insertionSort recIdGe (q2.filter (fun r => r.user == u))))

/-- The condition the claim states for one optional filter parameter: absent
or empty parameter matches everything, a parsed id list matches a recipe
having at least one associated id in the list. -/
def param_matches (p : Option String) (proj : Recipe → List Nat) (r : Recipe) : Bool :=
  match p with
  | none => true
  | some s =>
    if s = "" then true
    else
      match params_to_ids s with
      | .ok ids => (proj r).any (fun t => ids.contains (Int.ofNat t))
      | .error _ => false

/-! ## Detail lookup and object-level visibility (DRF `get_object` over the
owner-scoped queryset)

A detail request (retrieve / update / destroy) resolves its object with
`get_object()`, which looks the primary key up inside `get_queryset()` and
answers 404 when it is absent.  `IsAuthenticated` performs no object-level
check, so no request path ever produces a 403 for an existing foreign row:
the only failure the routing can produce here is `notFound`. -/

/-- Outcome statuses a detail request can report.  `forbidden` (403) is part
of the response vocabulary of the framework but, as the theorems show, is
never produced by these views. -/
inductive ApiStatus where
  | ok
  | notFound
  | forbidden
deriving DecidableEq, Repr

/-- DRF `get_object` for `RecipeViewSet`: find the primary key inside the
owner-scoped queryset (a detail request carries no filter parameters). -/
def get_object (recipes : List Recipe) (u : Nat) (pk : Nat) : Option Recipe :=
  match get_queryset recipes u none none with
  | .ok visible => visible.find? (fun r => r.id == pk)
  | .error _ => none

/-- `GET /recipes/{id}/`. -/
def detail_retrieve (recipes : List Recipe) (u : Nat) (pk : Nat) : ApiStatus × Option Recipe :=
  match get_object recipes u pk with
  | some r => (.ok, some r)
  | none => (.notFound, none)

/-- `DELETE /recipes/{id}/`: delete the resolved row, or 404. -/
def detail_destroy (recipes : List Recipe) (u : Nat) (pk : Nat) : ApiStatus × List Recipe :=
  match get_object recipes u pk with
  | some r => (.ok, recipes.erase r)
  | none => (.notFound, recipes)

/-! ## Tag store and serializer writes (app/recipe/serializers.py) -/

/-- The `Tag` table with its autoincrement counter. -/
structure TagStore where
  rows : List Tag
  nextId : Nat
deriving DecidableEq, Repr

/-- `Tag.objects.get_or_create(user=user, name=name)`: return the first
existing row with this owner and name, otherwise append a fresh row. -/
def tag_get_or_create (db : TagStore) (u : Nat) (name : String) : TagStore × Tag :=
  match db.rows.find? (fun t => t.user == u && t.name == name) with
  | some t => (db, t)
  | none =>
    let t : Tag := ⟨db.nextId, name, u⟩
    (⟨db.rows ++ [t], db.nextId + 1⟩, t)

/-- Django many-to-many `recipe.tags.add(tag)`: a no-op when the association
already exists. -/
def m2m_add (r : Recipe) (tid : Nat) : Recipe :=
  if r.tags.contains tid then r else { r with tags := r.tags ++ [tid] }

/-- `RecipeSerializer._get_or_create_tags` (serializers.py 26-36): for each
payload entry get-or-create the tag scoped to the request user, then
associate it with the recipe. -/
def get_or_create_tags : TagStore → Nat → List String → Recipe → TagStore × Recipe
  | db, _, [], r => (db, r)
  | db, u, n :: ns, r =>
    let s := tag_get_or_create db u n
    get_or_create_tags s.1 u ns (m2m_add r s.2.id)

/-- The id sequence produced by get-or-creating the payload names in order. -/
def tag_ids_of : TagStore → Nat → List String → List Nat
  | _, _, [] => []
  | db, u, n :: ns =>
    let s := tag_get_or_create db u n
    s.2.id :: tag_ids_of s.1 u ns

/-- Set-semantics fold of `m2m_add` on a bare id list: append each id not
already present, keeping first occurrences. -/
def addAllDedup : List Nat → List Nat → List Nat
  | acc, [] => acc
  | acc, i :: is => addAllDedup (if acc.contains i then acc else acc ++ [i]) is

/-- A `POST /recipes/` payload after DRF validation.  The serializer fields
are `id, title, time_minutes, price, link, tags` plus `description` on the
detail serializer; an `ingredients` or `user` key in the request body is not
among the declared fields, so the serializer drops it — both are carried
here so the theorems can quantify over payloads that contain them. -/
structure CreatePayload where
  title : String
  time_minutes : Int
  price : Int
  link : String := ""
  description : String := ""
  tags : List String := []
  ingredients : List String := []
  user : Option Nat := none
deriving DecidableEq, Repr

/-- A `PATCH /recipes/{id}/` payload: every writable scalar field optional,
plus the optional `tags` key.  As in `CreatePayload`, `ingredients` and
`user` are carried only to state that the code ignores them. -/
structure UpdatePayload where
  title : Option String := none
  description : Option String := none
  time_minutes : Option Int := none
  price : Option Int := none
  link : Option String := none
  tags : Option (List String) := none
  ingredients : Option (List String) := none
  user : Option Nat := none
deriving DecidableEq, Repr

/-- `RecipeSerializer.create` combined with `RecipeViewSet.perform_create`
(serializers.py 38-43, views.py 82-86): pop `tags`, create the row with the
scalar fields and `user=self.request.user`, then reconcile the tags.  `rid`
is the autoincrement primary key the recipe table assigns. -/
def serializer_create (db : TagStore) (rid : Nat) (caller : Nat) (p : CreatePayload) :
    TagStore × Recipe :=
  let recipe : Recipe :=
    { id := rid, user := caller, title := p.title, description := p.description,
      time_minutes := p.time_minutes, price := p.price, link := p.link,
      tags := [], ingredients := [], image := none }
  get_or_create_tags db caller p.tags recipe

/-- The `setattr` loop of `RecipeSerializer.update` (serializers.py 52-53)
over the validated scalar fields: only fields present in the payload are
touched; `user` and `id` can never appear in `validated_data` because they
are not writable serializer fields. -/
def applyScalars (r : Recipe) (p : UpdatePayload) : Recipe :=
  { r with
    title := p.title.getD r.title,
    description := p.description.getD r.description,
    time_minutes := p.time_minutes.getD r.time_minutes,
    price := p.price.getD r.price,
    link := p.link.getD r.link }

/-- `RecipeSerializer.update` (serializers.py 45-57): pop `tags`; when the
key is present (even `[]`) clear the association set and re-associate from
the payload; then apply the scalar `setattr` loop and save. -/
def serializer_update (db : TagStore) (caller : Nat) (inst : Recipe) (p : UpdatePayload) :
    TagStore × Recipe :=
  match p.tags with
  | some ns =>
    let s := get_or_create_tags db caller ns { inst with tags := [] }
    (s.1, applyScalars s.2 p)
  | none => (db, applyScalars inst p)

/-- `PATCH /recipes/{id}/`: resolve through `get_object`, then run the
serializer update and save the row back. -/
def detail_update (db : TagStore) (recipes : List Recipe) (u : Nat) (pk : Nat)
    (p : UpdatePayload) : ApiStatus × TagStore × List Recipe :=
  match get_object recipes u pk with
  | some r =>
    let s := serializer_update db u r p
    (.ok, s.1, recipes.map (fun x => if x.id == pk then s.2 else x))
  | none => (.notFound, db, recipes)

/-! ## Tag / ingredient list endpoints (BaseRecipeAttrViewSet, views.py 103-115) -/

/-- Lexicographic comparison of character lists by code point, the order the
database uses for `name` columns in this model. -/
def strLeAux : List Char → List Char → Bool
  | [], _ => true
  | _ :: _, [] => false
  | a :: as, b :: bs =>
    if a.toNat < b.toNat then true
    else if b.toNat < a.toNat then false
    else strLeAux as bs

/-- Lexicographic string comparison by code point. -/
def strLe (a b : String) : Bool := strLeAux a.data b.data

/-- Descending name order used by `.order_by('-name')`. -/
def tagNameGe (a b : Tag) : Prop := strLe b.name a.name = true

instance : DecidableRel tagNameGe := fun a b => instDecidableEqBool (strLe b.name a.name) true

/-- `BaseRecipeAttrViewSet.get_queryset` (views.py 114-115) for the tag
viewset: filter to the authenticated user and order by name descending.
The request query parameters are passed in but the source reads none of
them — in particular `assigned_only` is ignored. -/
def attr_get_queryset (rows : List Tag) (u : Nat) (_queryParams : List (String × String)) :
    List Tag :=
  List.insertionSort tagNameGe (rows.filter (fun t => t.user == u))

/-! ## Routing of the attribute viewsets (views.py 103-131)

`BaseRecipeAttrViewSet` is assembled from explicit mixins; a DRF router
exposes exactly the verbs those mixins provide: `ListModelMixin` gives GET
on the collection, `CreateModelMixin` would give POST on the collection,
`RetrieveModelMixin` GET on the detail route, `UpdateModelMixin` PUT and
PATCH, `DestroyModelMixin` DELETE.  Any other verb answers 405. -/

/-- The DRF mixins a viewset class can be assembled from. -/
inductive Mixin where
  | createModel
  | listModel
  | retrieveModel
  | updateModel
  | destroyModel
deriving DecidableEq, Repr

/-- The HTTP verbs of the API. -/
inductive HttpMethod where
  | get
  | post
  | put
  | patch
  | delete
deriving DecidableEq, Repr

/-- The mixin list of `BaseRecipeAttrViewSet` (views.py 103-107). -/
def baseRecipeAttrMixins : List Mixin :=
  [.destroyModel, .updateModel, .listModel]

/-- `TagViewSet` inherits the base class unchanged (views.py 118-123). -/
def tagViewSetMixins : List Mixin := baseRecipeAttrMixins

/-- `IngredientViewSet` inherits the base class unchanged (views.py 126-131). -/
def ingredientViewSetMixins : List Mixin := baseRecipeAttrMixins

/-- Verbs the router exposes on the collection endpoint. -/
def collection_methods (ms : List Mixin) : List HttpMethod :=
  (if Mixin.listModel ∈ ms then [HttpMethod.get] else []) ++
  (if Mixin.createModel ∈ ms then [HttpMethod.post] else [])

/-- Verbs the router exposes on the detail endpoint. -/
def detail_methods (ms : List Mixin) : List HttpMethod :=
  (if Mixin.retrieveModel ∈ ms then [HttpMethod.get] else []) ++
  (if Mixin.updateModel ∈ ms then [HttpMethod.put, HttpMethod.patch] else []) ++
  (if Mixin.destroyModel ∈ ms then [HttpMethod.delete] else [])

/-! ## Identity store (UserManger.create_user, app/core/models.py 22-51) -/

/-- A row of the custom user model. -/
structure UserRow where
  id : Nat
  email : String
  name : String := ""
  is_active : Bool := true
  is_staff : Bool := false
  is_superuser : Bool := false
  password_hash : String := ""
deriving DecidableEq, Repr

/-- The user table with its autoincrement counter. -/
structure UserStore where
  rows : List UserRow := []
  nextId : Nat := 1
deriving DecidableEq, Repr

/-- Python `str.split(sep)` for an arbitrary one-character separator. -/
def splitOnChar (sep : Char) (s : String) : List String :=
  splitCharAux sep s.data []

/-- Lowercase the ASCII letters of a string. -/
def lowerString (s : String) : String :=
  String.mk (s.data.map Char.toLower)

/-- Django `BaseUserManager.normalize_email`: strip the address, split at the
last `@`, lowercase the domain part and keep the local part verbatim; an
address with no `@` is returned unchanged. -/
def normalize_email (email : String) : String :=
  let ps := splitOnChar '@' (String.mk (trimChars email.data))
  if ps.length ≤ 1 then email
  else
    String.intercalate "@" ps.dropLast ++ "@" ++ lowerString (ps.getLastD "")

/-- Stand-in for `user.set_password` (framework password hashing, out of
scope per the spec): an injective tagging of the raw password; `none` models
the `password=None` default. -/
def hash_password (p : Option String) : String :=
  "hashed:" ++ p.getD ""

/-- `UserManger.create_user` (models.py 26-40): `if not email: raise
ValueError(...)`; otherwise normalize the email, hash the password, persist
and return the new row.  The store is returned unchanged on the error
branch. -/
def create_user (st : UserStore) (email : String) (password : Option String) (name : String) :
    UserStore × Except String UserRow :=
  if email = "" then (st, .error "Email address is required.")
  else
    let u : UserRow :=
      { id := st.nextId, email := normalize_email email, name := name,
        password_hash := hash_password password }
    (⟨st.rows ++ [u], st.nextId + 1⟩, .ok u)

/-! ## Image upload (recipe_image_file_path, models.py 12-19, and
RecipeViewSet.upload_image, views.py 88-100) -/

/-- Extension part of `os.path.splitext` on a reversed base name: collect
characters up to the first dot seen from the right; the dot starts an
extension only when some earlier character of the base name is not a dot. -/
def extFromRev : List Char → List Char → List Char
  | [], _ => []
  | c :: rest, acc =>
    if c = '.' then
      if rest.any (fun x => x ≠ '.') then '.' :: acc else []
    else extFromRev rest (c :: acc)

/-- The extension `os.path.splitext(filename)[1]`, dot included ("" when the
name has no extension). -/
def splitextExtension (filename : String) : String :=
  let base := (splitOnChar '/' filename).getLastD ""
  String.mk (extFromRev base.data.reverse [])

/-- `recipe_image_file_path` (models.py 12-19): replace the client file name
with a generated UUID, keeping only its extension, under the fixed directory
`uploads/recipe`.  The UUID hex string is a parameter because it is drawn
from the runtime random source. -/
def recipe_image_file_path (generatedUuid : String) (filename : String) : String :=
  "uploads/recipe/" ++ generatedUuid ++ splitextExtension filename

/-- Modelled from the spec: the multipart file of an upload request.
`RecipeImageSerializer` is referenced by `RecipeViewSet.upload_image` and
`get_serializer_class` but its definition is absent from the sources, so
image validity is abstracted to the Boolean its `ImageField` validation
decides. -/
structure UploadedFile where
  name : String
  isValidImage : Bool
deriving DecidableEq, Repr

/-- Modelled from the spec: `RecipeViewSet.upload_image` (views.py 88-100)
combined with the absent `RecipeImageSerializer`.  The serializer accepts
only a valid image payload (ValidationError / 400 otherwise, also when no
file is sent); on success the image field stores the generated path. -/
def uploadImage (r : Recipe) (file : Option UploadedFile) (generatedUuid : String) :
    Except String Recipe :=
  match file with
  | none => .error "ValidationError: no image submitted"
  | some f =>
    if f.isValidImage then
      .ok { r with image := some (recipe_image_file_path generatedUuid f.name) }
    else .error "ValidationError: invalid image"

/-! ## Helper lemmas about the recipe queryset pipeline -/

theorem mem_join_filter {qs : List Recipe} {proj : Recipe → List Nat} {ids : List Int}
    {r : Recipe} :
    r ∈ join_filter qs proj ids ↔
      r ∈ qs ∧ (proj r).any (fun t => ids.contains (Int.ofNat t)) = true := by
  simp only [join_filter, List.mem_flatMap, List.mem_map, List.mem_filter, List.any_eq_true]
  constructor
  · rintro ⟨a, ha, t, ⟨ht, hc⟩, rfl⟩
    exact ⟨ha, t, ht, hc⟩
  · rintro ⟨ha, t, ht, hc⟩
    exact ⟨r, ha, t, ⟨ht, hc⟩, rfl⟩

theorem mem_apply_id_filter {qs q : List Recipe} {proj : Recipe → List Nat} {p : Option String}
    {r : Recipe} (h : apply_id_filter qs proj p = .ok q) :
    r ∈ q ↔ r ∈ qs ∧ param_matches p proj r = true := by
  cases p with
  | none =>
    simp only [apply_id_filter, Except.ok.injEq] at h
    subst h
    simp [param_matches]
  | some s =>
    by_cases hs : s = ""
    · simp only [apply_id_filter, if_pos hs, Except.ok.injEq] at h
      subst h
      simp [param_matches, hs]
    · cases hp : params_to_ids s with
      | ok ids =>
        simp only [apply_id_filter, if_neg hs, hp, Except.ok.injEq] at h
        subst h
        simp [param_matches, hs, hp, mem_join_filter]
      | error e =>
        simp [apply_id_filter, if_neg hs, hp] at h

theorem get_queryset_spec {recipes : List Recipe} {u : Nat} {tp ip : Option String}
    {l : List Recipe} (h : get_queryset recipes u tp ip = .ok l) :
    (∀ r, r ∈ l ↔
        r ∈ recipes ∧ r.user = u ∧ param_matches tp Recipe.tags r = true ∧
          param_matches ip Recipe.ingredients r = true)
    ∧ l.Nodup ∧ l.Sorted recIdGe := by
  unfold get_queryset at h
  cases h1 : apply_id_filter recipes Recipe.tags tp with
  | error e => simp [h1] at h
  | ok q1 =>
    cases h2 : apply_id_filter q1 Recipe.ingredients ip with
    | error e => simp [h1, h2] at h
    | ok q2 =>
      simp only [h1, h2, Except.ok.injEq] at h
      subst h
      refine ⟨?_, List.nodup_dedup _, ?_⟩
      · intro r
        rw [List.mem_dedup, List.mem_insertionSort, List.mem_filter,
          mem_apply_id_filter h2, mem_apply_id_filter h1]
        simp only [beq_iff_eq]
        tauto
      · exact List.Pairwise.sublist (List.dedup_sublist _) (List.sorted_insertionSort recIdGe _)

theorem get_object_none {recipes : List Recipe} {u pk : Nat}
    (h : ∀ x ∈ recipes, x.id = pk → x.user ≠ u) :
    get_object recipes u pk = none := by
  unfold get_object
  cases hq : get_queryset recipes u none none with
  | error e => rfl
  | ok visible =>
    rw [List.find?_eq_none]
    intro x hx
    have hmem := ((get_queryset_spec hq).1 x).mp hx
    simp only [beq_iff_eq]
    intro hxid
    exact h x hmem.1 hxid hmem.2.1

/-! ## Claim theorems -/

/-- Claim C3: for every owner and optional id-list parameters, a successful
recipe list contains exactly the recipes of that owner matching the given
tag filter and the given ingredient filter, in descending id order, with no
recipe appearing more than once. -/
theorem claim_C3 (recipes : List Recipe) (owner : Nat) (tagsParam ingredientsParam : Option String)
    (l : List Recipe) (h : get_queryset recipes owner tagsParam ingredientsParam = .ok l) :
    (∀ r, r ∈ l ↔
        r ∈ recipes ∧ r.user = owner ∧ param_matches tagsParam Recipe.tags r = true ∧
          param_matches ingredientsParam Recipe.ingredients r = true)
    ∧ l.Nodup ∧ l.Sorted recIdGe :=
  get_queryset_spec h

def c3recipeA : Recipe :=
  { id := 1, user := 1, title := "A", description := "", time_minutes := 5, price := 3,
    link := "", tags := [1, 2], ingredients := [], image := none }

def c3recipeB : Recipe :=
  { id := 2, user := 1, title := "B", description := "", time_minutes := 5, price := 3,
    link := "", tags := [2], ingredients := [], image := none }

def c3recipeC : Recipe :=
  { id := 3, user := 2, title := "C", description := "", time_minutes := 5, price := 3,
    link := "", tags := [1], ingredients := [], image := none }

/-- Witness for C3: a recipe matching both listed tag ids appears (once) in
the filtered list of its owner, a foreign recipe does not, and the result
has no duplicates. -/
theorem claim_C3_witness :
    c3recipeA ∈ [c3recipeB, c3recipeA] ∧ c3recipeC ∉ [c3recipeB, c3recipeA]
      ∧ ([c3recipeB, c3recipeA] : List Recipe).Nodup := by
  have h := claim_C3 [c3recipeA, c3recipeB, c3recipeC] 1 (some "1,2") none
    [c3recipeB, c3recipeA] rfl
  exact ⟨(h.1 c3recipeA).mpr (by decide),
    fun hc => absurd (((h.1 c3recipeC).mp hc).2.1) (by decide), h.2.1⟩

/-- Claim C1: when every recipe carrying a given id belongs to another
user, the detail operations (retrieve, destroy, update) answer `notFound`
exactly as they would for an id that does not exist at all — never a
distinct forbidden outcome — and a recipe list of the requesting user never
contains a foreign row. -/
theorem claim_C1 (recipes : List Recipe) (u pk : Nat) (db : TagStore) (q : UpdatePayload)
    (r0 : Recipe) (_hmem : r0 ∈ recipes) (_hid : r0.id = pk)
    (hforeign : ∀ x ∈ recipes, x.id = pk → x.user ≠ u) :
    detail_retrieve recipes u pk = (ApiStatus.notFound, none)
    ∧ detail_retrieve recipes u pk = detail_retrieve (recipes.filter (fun x => x.id != pk)) u pk
    ∧ detail_destroy recipes u pk = (ApiStatus.notFound, recipes)
    ∧ detail_update db recipes u pk q = (ApiStatus.notFound, db, recipes)
    ∧ ∀ tp ip l, get_queryset recipes u tp ip = .ok l → ∀ x ∈ l, x.user = u := by
  have hnone := get_object_none hforeign
  have hnone2 : get_object (recipes.filter (fun x => x.id != pk)) u pk = none := by
    apply get_object_none
    intro x hx hxid
    rw [List.mem_filter] at hx
    exact absurd hxid (by simpa using hx.2)
  refine ⟨?_, ?_, ?_, ?_, ?_⟩
  · simp [detail_retrieve, hnone]
  · simp [detail_retrieve, hnone, hnone2]
  · simp [detail_destroy, hnone]
  · simp [detail_update, hnone]
  · intro tp ip l hq x hx
    exact (((get_queryset_spec hq).1 x).mp hx).2.1

def c1foreign : Recipe :=
  { id := 5, user := 2, title := "Other", description := "", time_minutes := 1, price := 1,
    link := "", tags := [], ingredients := [], image := none }

/-- Witness for C1: user 1 requesting the recipe with id 5 owned by user 2
gets `notFound` from retrieve and destroy, leaving the table untouched. -/
theorem claim_C1_witness :
    detail_retrieve [c1foreign] 1 5 = (ApiStatus.notFound, none)
    ∧ detail_destroy [c1foreign] 1 5 = (ApiStatus.notFound, [c1foreign]) := by
  have h := claim_C1 [c1foreign] 1 5 ⟨[], 1⟩ {} c1foreign (by decide) rfl (by decide)
  exact ⟨h.1, h.2.2.1⟩

/-! ## Helper lemmas about tag reconciliation -/

theorem m2m_add_user (r : Recipe) (i : Nat) : (m2m_add r i).user = r.user := by
  unfold m2m_add
  split <;> rfl

theorem m2m_add_tags_eq (r : Recipe) (i : Nat) :
    (m2m_add r i).tags = if r.tags.contains i then r.tags else r.tags ++ [i] := by
  unfold m2m_add
  split <;> simp_all

theorem applyScalars_user (r : Recipe) (p : UpdatePayload) : (applyScalars r p).user = r.user := rfl

theorem applyScalars_tags (r : Recipe) (p : UpdatePayload) : (applyScalars r p).tags = r.tags := rfl

theorem get_or_create_tags_user : ∀ (ns : List String) (db : TagStore) (u : Nat) (r : Recipe),
    ((get_or_create_tags db u ns r).2).user = r.user
  | [], _, _, _ => rfl
  | n :: ns, db, u, r => by
    show ((get_or_create_tags (tag_get_or_create db u n).1 u ns
      (m2m_add r (tag_get_or_create db u n).2.id)).2).user = r.user
    rw [get_or_create_tags_user ns, m2m_add_user]

theorem get_or_create_tags_tags : ∀ (ns : List String) (db : TagStore) (u : Nat) (r : Recipe),
    ((get_or_create_tags db u ns r).2).tags = addAllDedup r.tags (tag_ids_of db u ns)
  | [], _, _, _ => rfl
  | n :: ns, db, u, r => by
    show ((get_or_create_tags (tag_get_or_create db u n).1 u ns
      (m2m_add r (tag_get_or_create db u n).2.id)).2).tags = _
    rw [get_or_create_tags_tags ns, m2m_add_tags_eq]
    rfl

theorem tag_get_or_create_rows (db : TagStore) (u : Nat) (n : String) :
    ∃ new, ((tag_get_or_create db u n).1).rows = db.rows ++ new := by
  unfold tag_get_or_create
  cases db.rows.find? (fun t => t.user == u && t.name == n) with
  | some t => exact ⟨[], by simp⟩
  | none => exact ⟨[⟨db.nextId, n, u⟩], rfl⟩

theorem get_or_create_tags_rows : ∀ (ns : List String) (db : TagStore) (u : Nat) (r : Recipe),
    ∃ new, ((get_or_create_tags db u ns r).1).rows = db.rows ++ new
  | [], db, _, _ => ⟨[], by simp [get_or_create_tags]⟩
  | n :: ns, db, u, r => by
    show ∃ new, ((get_or_create_tags (tag_get_or_create db u n).1 u ns
      (m2m_add r (tag_get_or_create db u n).2.id)).1).rows = db.rows ++ new
    obtain ⟨n1, h1⟩ := tag_get_or_create_rows db u n
    obtain ⟨n2, h2⟩ := get_or_create_tags_rows ns (tag_get_or_create db u n).1 u
      (m2m_add r (tag_get_or_create db u n).2.id)
    exact ⟨n1 ++ n2, by rw [h2, h1, List.append_assoc]⟩

/-- Claim C2: a created recipe is owned by the authenticated caller whatever
the payload carries (including a caller-supplied `user` value), and an
update leaves the owner of the instance untouched whatever the payload
carries. -/
theorem claim_C2 (db db2 : TagStore) (rid caller : Nat) (p : CreatePayload)
    (inst : Recipe) (q : UpdatePayload) :
    (serializer_create db rid caller p).2.user = caller
    ∧ (serializer_update db2 caller inst q).2.user = inst.user := by
  constructor
  · unfold serializer_create
    rw [get_or_create_tags_user]
  · unfold serializer_update
    cases q.tags with
    | some ns =>
      show (applyScalars (get_or_create_tags db2 caller ns { inst with tags := [] }).2 q).user = _
      rw [applyScalars_user, get_or_create_tags_user]
    | none =>
      exact applyScalars_user inst q

/-- Claim C6: when the update payload carries a `tags` key (even `[]`), the
association set of the recipe after the update is exactly the one rebuilt
from the payload entries — independent of the previous associations — and
every pre-existing `Tag` row is still present unchanged in the store; when
the key is absent, the associations and the tag store are exactly what they
were. -/
theorem claim_C6 (db : TagStore) (caller : Nat) (inst : Recipe) (q : UpdatePayload) :
    (∀ ns, q.tags = some ns →
      (serializer_update db caller inst q).2.tags = addAllDedup [] (tag_ids_of db caller ns)
      ∧ ∃ new, ((serializer_update db caller inst q).1).rows = db.rows ++ new)
    ∧ (q.tags = none →
      (serializer_update db caller inst q).2.tags = inst.tags
      ∧ (serializer_update db caller inst q).1 = db) := by
  constructor
  · intro ns hns
    unfold serializer_update
    rw [hns]
    constructor
    · show (applyScalars (get_or_create_tags db caller ns { inst with tags := [] }).2 q).tags = _
      rw [applyScalars_tags, get_or_create_tags_tags]
    · exact get_or_create_tags_rows ns db caller { inst with tags := [] }
  · intro hn
    unfold serializer_update
    rw [hn]
    exact ⟨applyScalars_tags inst q, rfl⟩

def c6store : TagStore := ⟨[⟨1, "Dessert", 1⟩], 2⟩

def c6recipe : Recipe :=
  { id := 4, user := 1, title := "Cake", description := "", time_minutes := 10, price := 2,
    link := "", tags := [1], ingredients := [], image := none }

/-- Witness for C6: replacing the tags of a recipe that has the Dessert tag
with `[Dinner]` yields exactly the reconciled Dinner association, and an
update without a `tags` key leaves the association with Dessert in place. -/
theorem claim_C6_witness :
    (serializer_update c6store 1 c6recipe { tags := some ["Dinner"] }).2.tags =
      addAllDedup [] (tag_ids_of c6store 1 ["Dinner"])
    ∧ (serializer_update c6store 1 c6recipe { title := some "Pie" }).2.tags = c6recipe.tags := by
  exact ⟨((claim_C6 c6store 1 c6recipe { tags := some ["Dinner"] }).1 ["Dinner"] rfl).1,
    ((claim_C6 c6store 1 c6recipe { title := some "Pie" }).2 rfl).1⟩

def c5payload : CreatePayload :=
  { title := "Adobo", time_minutes := 35, price := 350,
    ingredients := ["Chicken", "Onion", "Vinegar"] }

def c5recipe : Recipe :=
  { id := 7, user := 7, title := "Adobo", description := "", time_minutes := 35, price := 350,
    link := "", tags := [], ingredients := [2], image := none }

/-- Claim C5 (violated by the code): `RecipeSerializer` declares no
`ingredients` field, so a create payload carrying three ingredient entries
yields a recipe with no ingredient associations, and an update payload
carrying an `ingredients` key leaves the associations untouched — unlike the
tag handling the repository tests expect ingredients to mirror. -/
theorem claim_C5 :
    c5payload.ingredients = ["Chicken", "Onion", "Vinegar"]
    ∧ (serializer_create ⟨[], 1⟩ 1 7 c5payload).2.ingredients = []
    ∧ (serializer_update ⟨[], 1⟩ 7 c5recipe { ingredients := some ["Onion"] }).2.ingredients =
        c5recipe.ingredients := by
  exact ⟨rfl, rfl, rfl⟩

def c4lunch : Tag := ⟨1, "Lunch", 1⟩

def c4dinner : Tag := ⟨2, "Dinner", 1⟩

def c4adobo : Recipe :=
  { id := 1, user := 1, title := "Adobo", description := "", time_minutes := 30, price := 450,
    link := "", tags := [1], ingredients := [], image := none }

/-- Claim C4 (violated by the code): `BaseRecipeAttrViewSet.get_queryset`
reads no query parameters, so with `assigned_only=1` the listing still
returns the Dinner tag of the requesting user although the only recipe of
that user references Lunch alone. -/
theorem claim_C4 :
    attr_get_queryset [c4lunch, c4dinner] 1 [("assigned_only", "1")] = [c4lunch, c4dinner]
    ∧ c4dinner.id ∉ c4adobo.tags ∧ c4lunch.id ∈ c4adobo.tags ∧ c4dinner.user = 1 := by
  decide

/-- Counterexample for C7: POST is not among the verbs routed for the tag or
ingredient collection endpoints, because neither viewset includes
`CreateModelMixin`. -/
theorem claim_C7_counterexample :
    HttpMethod.post ∉ collection_methods tagViewSetMixins
    ∧ HttpMethod.post ∉ collection_methods ingredientViewSetMixins := by
  decide

/-- Claim C7 as amended: the tag and ingredient collection endpoints route
GET only, the detail endpoints route PUT, PATCH and DELETE, and no create
operation is exposed over either API. -/
theorem claim_C7 :
    collection_methods tagViewSetMixins = [HttpMethod.get]
    ∧ collection_methods ingredientViewSetMixins = [HttpMethod.get]
    ∧ detail_methods tagViewSetMixins = [HttpMethod.put, HttpMethod.patch, HttpMethod.delete]
    ∧ detail_methods ingredientViewSetMixins =
        [HttpMethod.put, HttpMethod.patch, HttpMethod.delete] := by
  decide

/-- Claim C8: creating a user with an empty email always fails with the
required-email error and the user table is left exactly as it was, whatever
the password. -/
theorem claim_C8 (st : UserStore) (password : Option String) (name : String) :
    (create_user st "" password name).1 = st
    ∧ (create_user st "" password name).2 = .error "Email address is required." := by
  exact ⟨rfl, rfl⟩

/-- Claim C9: an upload succeeds exactly when a valid image file is
supplied, and on success the stored path is the fixed directory plus the
generated name plus the extension of the client file name — nothing else of
the client name survives. -/
theorem claim_C9 (r : Recipe) (file : Option UploadedFile) (generatedUuid : String) :
    ((uploadImage r file generatedUuid).toOption.isSome = true ↔
      ∃ f, file = some f ∧ f.isValidImage = true)
    ∧ (∀ f, file = some f → f.isValidImage = true →
        uploadImage r file generatedUuid =
          .ok { r with
            image := some ("uploads/recipe/" ++ generatedUuid ++ splitextExtension f.name) }) := by
  cases file with
  | none => simp [uploadImage, Except.toOption]
  | some f =>
    cases hf : f.isValidImage with
    | true => simp [uploadImage, Except.toOption, hf, recipe_image_file_path]
    | false => simp [uploadImage, Except.toOption, hf]

def c9recipe : Recipe :=
  { id := 9, user := 3, title := "Soup", description := "", time_minutes := 12, price := 4,
    link := "", tags := [], ingredients := [], image := none }

def c9file : UploadedFile := ⟨"photo.jpg", true⟩

/-- Witness for C9: uploading a valid `photo.jpg` stores
`uploads/recipe/<uuid>.jpg`. -/
theorem claim_C9_witness :
    uploadImage c9recipe (some c9file) "u0" =
      .ok { c9recipe with image := some "uploads/recipe/u0.jpg" } := by
  have h := (claim_C9 c9recipe (some c9file) "u0").2 c9file rfl rfl
  exact h

theorem ints_of_all_some : ∀ cs : List String, (∀ c ∈ cs, (pyInt c).isSome = true) →
    ints_of cs = some (cs.filterMap pyInt)
  | [], _ => rfl
  | c :: cs, h => by
    obtain ⟨i, hi⟩ := Option.isSome_iff_exists.mp (h c (List.mem_cons_self c cs))
    have ih := ints_of_all_some cs (fun x hx => h x (List.mem_cons_of_mem c hx))
    simp [ints_of, hi, ih, List.filterMap_cons]

theorem ints_of_has_none : ∀ cs : List String, (∃ c ∈ cs, pyInt c = none) →
    ints_of cs = none
  | c :: cs, h => by
    obtain ⟨x, hx, hnone⟩ := h
    rcases List.mem_cons.mp hx with rfl | hx2
    · simp [ints_of, hnone]
    · have ih := ints_of_has_none cs ⟨x, hx2, hnone⟩
      cases hc : pyInt c <;> simp [ints_of, hc, ih]

/-- Claim C10: `_params_to_ids` yields the integers of the comma-separated
components, in order, exactly when every component parses; any bad
component (for instance the empty component a trailing comma produces)
yields the `ValueError`, which the list operation propagates as a bare
failure rather than a structured error response — whether the bad string
stands in the `tags` parameter or in the `ingredients` parameter (the
latter whenever the request gets past the `tags` filter at all). -/
theorem claim_C10 (s : String) :
    ((∀ c ∈ splitComma s, (pyInt c).isSome = true) →
        params_to_ids s = .ok ((splitComma s).filterMap pyInt))
    ∧ ((∃ c ∈ splitComma s, pyInt c = none) → params_to_ids s = .error pyIntErrorMsg)
    ∧ (∀ (recipes : List Recipe) (u : Nat) (e : String), s ≠ "" →
        params_to_ids s = .error e →
        (∀ ip : Option String, get_queryset recipes u (some s) ip = .error e)
        ∧ (∀ (tp : Option String) (q1 : List Recipe),
            apply_id_filter recipes Recipe.tags tp = .ok q1 →
            get_queryset recipes u tp (some s) = .error e)) := by
  refine ⟨?_, ?_, ?_⟩
  · intro h
    unfold params_to_ids
    rw [ints_of_all_some _ h]
  · intro h
    unfold params_to_ids
    rw [ints_of_has_none _ h]
  · intro recipes u e hs herr
    have hfail : ∀ (qs : List Recipe) (proj : Recipe → List Nat),
        apply_id_filter qs proj (some s) = .error e := by
      intro qs proj
      simp [apply_id_filter, if_neg hs, herr]
    constructor
    · intro ip
      unfold get_queryset
      rw [hfail]
    · intro tp q1 htp
      unfold get_queryset
      simp only [htp, hfail]

/-- Witness for C10: `"10,-3"` parses to the two listed integers, while the
trailing comma of `"1,2,"` makes the whole recipe list operation fail with
the `ValueError` rather than answer anything, both when it stands in the
`tags` parameter and when it stands in the `ingredients` parameter. -/
theorem claim_C10_witness :
    params_to_ids "10,-3" = .ok ((splitComma "10,-3").filterMap pyInt)
    ∧ get_queryset [] 1 (some "1,2,") none = .error pyIntErrorMsg
    ∧ get_queryset [] 1 none (some "1,2,") = .error pyIntErrorMsg := by
  exact ⟨(claim_C10 "10,-3").1 (by decide),
    ((claim_C10 "1,2,").2.2 [] 1 pyIntErrorMsg (by decide) rfl).1 none,
    ((claim_C10 "1,2,").2.2 [] 1 pyIntErrorMsg (by decide) rfl).2 none [] rfl⟩
